import Mathlib

/-!
# Verification of `ping.c` (terminal bouncing-ball animation)

Shallow embedding of the pure core of `src/ping.c`:

* `vec2` / `entity_t` / `tty_ctx_t` mirror the C structs; the C scalar type
  `f64` (`long double`) is modelled by `ℚ`, so all arithmetic is exact.
* The viewport macros `DISPLAY_WIDTH`/`DISPLAY_HEIGHT` and the entity limit
  macros are functions of the terminal context.
* `entity_move` is the per-frame physics step (`void entity_move(entity_t *)`),
  modelled as a pure function `entity_t → entity_t`.
* `handle_command` is the modal command interpreter
  (`command_state_t handle_command(command_state_t, entity_t *)`), modelled as
  a function of the current mode, the entity and the character read by
  `getchar()` (an `int`; `EOF = -1` is the no-input sentinel of a
  non-blocking read), returning the new mode and the mutated entity.
-/

/-- The C scalar type `f64` (`typedef long double f64`), modelled exactly. -/
abbrev f64 := ℚ

/-- `struct { f64 x, y; } vec2`. -/
structure vec2 where
  x : f64
  y : f64
deriving DecidableEq, Repr

/-- `vec2_add` from the source. -/
def vec2_add (a b : vec2) : vec2 := ⟨a.x + b.x, a.y + b.y⟩

/-- `vec2_sub` from the source. -/
def vec2_sub (a b : vec2) : vec2 := ⟨a.x - b.x, a.y - b.y⟩

/-- `vec2_negate` from the source. -/
def vec2_negate (a : vec2) : vec2 := ⟨-a.x, -a.y⟩

/-- The fields of `tty_ctx_t` relevant to the pure core: the last-known
terminal dimensions (`rows`, `cols` are C `int`s). -/
structure tty_ctx_t where
  rows : ℤ
  cols : ℤ
deriving DecidableEq, Repr

/-- `#define DISPLAY_WIDTH (tty_context.cols - 1)`. -/
def DISPLAY_WIDTH (t : tty_ctx_t) : ℤ := t.cols - 1

/-- `#define DISPLAY_HEIGHT (tty_context.rows - 1)`. -/
def DISPLAY_HEIGHT (t : tty_ctx_t) : ℤ := t.rows - 1

/-- `struct { vec2 pos; vec2 delta; vec2 size; } entity_t`. -/
structure entity_t where
  pos : vec2
  delta : vec2
  size : vec2
deriving DecidableEq, Repr

/-- `#define MAX_ENTITY_WIDTH (DISPLAY_WIDTH / 2)` — C `int` division
truncates toward zero, i.e. `Int.tdiv`. -/
def MAX_ENTITY_WIDTH (t : tty_ctx_t) : ℤ := Int.tdiv (DISPLAY_WIDTH t) 2

/-- `#define MAX_ENTITY_HEIGHT (DISPLAY_HEIGHT / 2)`. -/
def MAX_ENTITY_HEIGHT (t : tty_ctx_t) : ℤ := Int.tdiv (DISPLAY_HEIGHT t) 2

/-- `#define MIN_ENTITY_WIDTH 1`. -/
def MIN_ENTITY_WIDTH : ℤ := 1

/-- `#define MIN_ENTITY_HEIGHT 1`. -/
def MIN_ENTITY_HEIGHT : ℤ := 1

/-- `#define MAX_ENTITY_DELTA_X DISPLAY_WIDTH`. -/
def MAX_ENTITY_DELTA_X (t : tty_ctx_t) : ℤ := DISPLAY_WIDTH t

/-- `#define MAX_ENTITY_DELTA_Y DISPLAY_HEIGHT`. -/
def MAX_ENTITY_DELTA_Y (t : tty_ctx_t) : ℤ := DISPLAY_HEIGHT t

/-- `#define MIN_ENTITY_DELTA_X 0`. -/
def MIN_ENTITY_DELTA_X : ℤ := 0

/-- `#define MIN_ENTITY_DELTA_Y 0`. -/
def MIN_ENTITY_DELTA_Y : ℤ := 0

/-- `#define DEFAULT_ENTITY_PROPERTIES`: position `(1,60)`, size `(2,1)`,
velocity `(0.005, 0.005)` (exactly `1/200`). -/
def DEFAULT_ENTITY_PROPERTIES : entity_t :=
  { pos := ⟨1, 60⟩, size := ⟨2, 1⟩, delta := ⟨1/200, 1/200⟩ }

/-- `out_of_bounds_x`: `1 > x || x >= DISPLAY_WIDTH`. -/
def out_of_bounds_x (t : tty_ctx_t) (x : f64) : Prop :=
  1 > x ∨ x ≥ (DISPLAY_WIDTH t : ℚ)

/-- `out_of_bounds_y`: `1 > y || y >= DISPLAY_HEIGHT`. -/
def out_of_bounds_y (t : tty_ctx_t) (y : f64) : Prop :=
  1 > y ∨ y ≥ (DISPLAY_HEIGHT t : ℚ)

/-- `out_of_bounds`: either coordinate out of bounds. -/
def out_of_bounds (t : tty_ctx_t) (pos : vec2) : Prop :=
  out_of_bounds_x t pos.x ∨ out_of_bounds_y t pos.y

instance (t : tty_ctx_t) (x : f64) : Decidable (out_of_bounds_x t x) := by
  unfold out_of_bounds_x; infer_instance

instance (t : tty_ctx_t) (y : f64) : Decidable (out_of_bounds_y t y) := by
  unfold out_of_bounds_y; infer_instance

instance (t : tty_ctx_t) (pos : vec2) : Decidable (out_of_bounds t pos) := by
  unfold out_of_bounds; infer_instance

/-- `constrain_x`: `x < 1 ? 1 : x >= DISPLAY_WIDTH ? DISPLAY_WIDTH - 1 : x`. -/
def constrain_x (t : tty_ctx_t) (x : f64) : f64 :=
  if x < 1 then 1 else if x ≥ (DISPLAY_WIDTH t : ℚ) then (DISPLAY_WIDTH t : ℚ) - 1 else x

/-- `constrain_y`. -/
def constrain_y (t : tty_ctx_t) (y : f64) : f64 :=
  if y < 1 then 1 else if y ≥ (DISPLAY_HEIGHT t : ℚ) then (DISPLAY_HEIGHT t : ℚ) - 1 else y

/-- `constrain`: `constrain_x`/`constrain_y` applied componentwise. -/
def constrain (t : tty_ctx_t) (v : vec2) : vec2 :=
  ⟨constrain_x t v.x, constrain_y t v.y⟩

/-- `collision_x`: `1 >= x || x >= DISPLAY_WIDTH`. -/
def collision_x (t : tty_ctx_t) (x : f64) : Prop :=
  1 ≥ x ∨ x ≥ (DISPLAY_WIDTH t : ℚ)

/-- `collision_y`: `1 >= y || y >= DISPLAY_HEIGHT`. -/
def collision_y (t : tty_ctx_t) (y : f64) : Prop :=
  1 ≥ y ∨ y ≥ (DISPLAY_HEIGHT t : ℚ)

/-- `collision`: either coordinate collides. -/
def collision (t : tty_ctx_t) (pos : vec2) : Prop :=
  collision_x t pos.x ∨ collision_y t pos.y

instance (t : tty_ctx_t) (x : f64) : Decidable (collision_x t x) := by
  unfold collision_x; infer_instance

instance (t : tty_ctx_t) (y : f64) : Decidable (collision_y t y) := by
  unfold collision_y; infer_instance

instance (t : tty_ctx_t) (pos : vec2) : Decidable (collision t pos) := by
  unfold collision; infer_instance

/-- `void entity_move(entity_t *e)`: the per-frame physics step, as a pure
function.  `en` is the local `const vec2 end = vec2_add(e->pos, e->size)`. -/
def entity_move (t : tty_ctx_t) (e : entity_t) : entity_t :=
  let en := vec2_add e.pos e.size
  let new_pos := vec2_add e.pos e.delta
  let new_end := vec2_add en e.delta
  if collision t new_pos then
    { e with
      delta := if collision_x t new_pos.x then ⟨-e.delta.x, e.delta.y⟩
               else ⟨e.delta.x, -e.delta.y⟩
      pos := constrain t new_pos }
  else if collision t new_end then
    { e with
      delta := if collision_x t new_end.x then ⟨-e.delta.x, e.delta.y⟩
               else ⟨e.delta.x, -e.delta.y⟩
      pos := vec2_sub (constrain t new_end) e.size }
  else
    { e with pos := new_pos }

/-- `typedef enum { NORMAL, RESIZE, SPEED, QUIT } command_state_t`. -/
inductive command_state_t where
  | NORMAL
  | RESIZE
  | SPEED
  | QUIT
deriving DecidableEq, Repr

open command_state_t

/-- `'q'` as returned by `getchar()`. -/
def key_q : ℤ := 113

/-- `'n'` as returned by `getchar()`. -/
def key_n : ℤ := 110

/-- `'r'` as returned by `getchar()`. -/
def key_r : ℤ := 114

/-- `'s'` as returned by `getchar()`. -/
def key_s : ℤ := 115

/-- `'w'` as returned by `getchar()`. -/
def key_w : ℤ := 119

/-- The `getchar()` no-input sentinel (`EOF`): with `stdin` set to
non-blocking, `getchar()` returns `-1` when no key is waiting. -/
def no_input : ℤ := -1

/-- `command_state_t handle_command(const command_state_t command, entity_t *e)`.
The character `c` is the value the C function reads via `getchar()`.
The C `!e->delta.x` (logical not of a scalar) is `1` when the component is
zero and `0` otherwise. -/
def handle_command (t : tty_ctx_t) (command : command_state_t) (e : entity_t)
    (c : ℤ) : command_state_t × entity_t :=
  if c = key_q then (QUIT, e)
  else if c = key_n then (NORMAL, e)
  else
    match command with
    | QUIT => (QUIT, e)
    | NORMAL =>
      if c = key_r then (RESIZE, e)
      else if c = key_s then (SPEED, e)
      else (NORMAL, e)
    | RESIZE =>
      if c = key_w then
        if e.size.x < (MAX_ENTITY_WIDTH t : ℚ) ∧ e.size.y < (MAX_ENTITY_HEIGHT t : ℚ) then
          (RESIZE, { e with size := ⟨e.size.x + 1, e.size.y + 1⟩ })
        else (RESIZE, e)
      else if c = key_s then
        if e.size.x > (MIN_ENTITY_WIDTH : ℚ) ∧ e.size.y > (MIN_ENTITY_HEIGHT : ℚ) then
          (RESIZE, { e with size := ⟨e.size.x - 1, e.size.y - 1⟩ })
        else (RESIZE, e)
      else (RESIZE, e)
    | SPEED =>
      if c = key_w then
        if e.delta.x < (MAX_ENTITY_DELTA_X t : ℚ) ∧ e.delta.y < (MAX_ENTITY_DELTA_Y t : ℚ) then
          (SPEED, { e with delta :=
            ⟨((if e.delta.x = 0 then 1 else 0) + e.delta.x) * 2,
             ((if e.delta.y = 0 then 1 else 0) + e.delta.y) * 2⟩ })
        else (SPEED, e)
      else if c = key_s then
        if e.delta.x > (MIN_ENTITY_DELTA_X : ℚ) ∧ e.delta.y > (MIN_ENTITY_DELTA_Y : ℚ) then
          (SPEED, { e with delta := ⟨e.delta.x / 2, e.delta.y / 2⟩ })
        else (SPEED, e)
      else (SPEED, e)

/-- The interval `[1, bound - 1]` of the spec's clamp-boundary statement,
taken componentwise (`bound` is `DISPLAY_WIDTH` for `x`, `DISPLAY_HEIGHT`
for `y`).  This is the spec's wording, not a source function. -/
def in_clamp_interval (t : tty_ctx_t) (v : vec2) : Prop :=
  1 ≤ v.x ∧ v.x ≤ (DISPLAY_WIDTH t : ℚ) - 1 ∧
  1 ≤ v.y ∧ v.y ≤ (DISPLAY_HEIGHT t : ℚ) - 1

/-! ## Helper lemmas -/

/-- Unfolding of the negated out-of-bounds predicate into interval bounds. -/
theorem not_out_of_bounds_iff (t : tty_ctx_t) (v : vec2) :
    ¬ out_of_bounds t v ↔
      1 ≤ v.x ∧ v.x < (DISPLAY_WIDTH t : ℚ) ∧
      1 ≤ v.y ∧ v.y < (DISPLAY_HEIGHT t : ℚ) := by
  unfold out_of_bounds out_of_bounds_x out_of_bounds_y
  push_neg
  tauto

/-- Unfolding of the negated collision predicate into strict interval bounds. -/
theorem not_collision_iff (t : tty_ctx_t) (v : vec2) :
    ¬ collision t v ↔
      1 < v.x ∧ v.x < (DISPLAY_WIDTH t : ℚ) ∧
      1 < v.y ∧ v.y < (DISPLAY_HEIGHT t : ℚ) := by
  unfold collision collision_x collision_y
  push_neg
  tauto

/-- `entity_move` either keeps the velocity or negates exactly one component. -/
theorem entity_move_delta_cases (t : tty_ctx_t) (e : entity_t) :
    (entity_move t e).delta = e.delta ∨
    (entity_move t e).delta = ⟨-e.delta.x, e.delta.y⟩ ∨
    (entity_move t e).delta = ⟨e.delta.x, -e.delta.y⟩ := by
  simp only [entity_move]
  split_ifs <;> simp

/-! ## Claims -/

/-- Claim C3: for every current mode, input `n` returns Normal with the
entity untouched; the `n` global override is checked before any
mode-specific handling. -/
theorem key_n_forces_normal (t : tty_ctx_t) (command : command_state_t)
    (e : entity_t) :
    handle_command t command e key_n = (NORMAL, e) := by
  unfold handle_command
  norm_num [key_q, key_n]

/-- Claim C8: for every current mode, the no-input sentinel leaves the mode
and every field of the entity unchanged. -/
theorem handle_command_no_input (t : tty_ctx_t) (command : command_state_t)
    (e : entity_t) :
    handle_command t command e no_input = (command, e) := by
  cases command <;>
    · unfold handle_command
      norm_num [no_input, key_q, key_n, key_r, key_s, key_w]

/-- Claim C2 counterexample: from Quit, input `n` yields Normal, not Quit —
the global `n` override is checked before the Quit case absorbs input. -/
theorem quit_reacts_to_n :
    (handle_command ⟨24, 80⟩ QUIT DEFAULT_ENTITY_PROPERTIES key_n).1 ≠ QUIT := by
  unfold handle_command
  norm_num [key_q, key_n]
  decide

/-- Claim C2 (amended): Quit absorbs every input other than the global `n`
override: for every input character except `n` (including the no-input
sentinel), handle_command called with current mode Quit returns Quit with
the entity untouched. -/
theorem quit_absorbs_except_n (t : tty_ctx_t) (e : entity_t) (c : ℤ)
    (h : c ≠ key_n) :
    handle_command t QUIT e c = (QUIT, e) := by
  unfold handle_command
  rcases eq_or_ne c key_q with hq | hq <;> simp [hq, h]

/-- Witness for `quit_absorbs_except_n` at input `w`. -/
theorem quit_absorbs_except_n_witness :
    handle_command ⟨24, 80⟩ QUIT DEFAULT_ENTITY_PROPERTIES key_w =
      (QUIT, DEFAULT_ENTITY_PROPERTIES) :=
  quit_absorbs_except_n ⟨24, 80⟩ DEFAULT_ENTITY_PROPERTIES key_w
    (by norm_num [key_w, key_n])

/-- Claim C9: if both tentative coordinates collide, only the x-axis
velocity is reflected (x is checked before y in both the leading-edge and
trailing-edge passes), and at most one velocity component is negated per
call. -/
theorem entity_move_x_before_y (t : tty_ctx_t) (e : entity_t) :
    (collision_x t (e.pos.x + e.delta.x) → collision_y t (e.pos.y + e.delta.y) →
        (entity_move t e).delta = ⟨-e.delta.x, e.delta.y⟩) ∧
    (¬ collision t (vec2_add e.pos e.delta) →
      collision_x t (e.pos.x + e.size.x + e.delta.x) →
      collision_y t (e.pos.y + e.size.y + e.delta.y) →
        (entity_move t e).delta = ⟨-e.delta.x, e.delta.y⟩) ∧
    ((entity_move t e).delta = e.delta ∨
     (entity_move t e).delta = ⟨-e.delta.x, e.delta.y⟩ ∨
     (entity_move t e).delta = ⟨e.delta.x, -e.delta.y⟩) := by
  refine ⟨?_, ?_, entity_move_delta_cases t e⟩
  · intro hx hy
    have hcol : collision t (vec2_add e.pos e.delta) := Or.inl hx
    have hx2 : collision_x t (vec2_add e.pos e.delta).x := hx
    simp only [entity_move]
    rw [if_pos hcol]
    simp [hx2]
  · intro hnc hx hy
    have hcol : collision t (vec2_add (vec2_add e.pos e.size) e.delta) := Or.inl hx
    have hx2 : collision_x t (vec2_add (vec2_add e.pos e.size) e.delta).x := hx
    simp only [entity_move]
    rw [if_neg hnc, if_pos hcol]
    simp [hx2]

/-- Witness for `entity_move_x_before_y`: with viewport 10×10, position
`(0,0)` and velocity `(1/2, 1/2)`, both tentative coordinates collide and
only the x component is negated. -/
theorem entity_move_x_before_y_witness :
    (entity_move ⟨11, 11⟩ ⟨⟨0, 0⟩, ⟨1/2, 1/2⟩, ⟨1, 1⟩⟩).delta =
      ⟨-(1/2 : ℚ), 1/2⟩ :=
  (entity_move_x_before_y ⟨11, 11⟩ ⟨⟨0, 0⟩, ⟨1/2, 1/2⟩, ⟨1, 1⟩⟩).1
    (by norm_num [collision_x, DISPLAY_WIDTH])
    (by norm_num [collision_y, DISPLAY_HEIGHT])

/-- Claim C10: `entity_move` never changes the magnitude of either velocity
component — only the sign of at most one component may flip. -/
theorem entity_move_preserves_speed (t : tty_ctx_t) (e : entity_t) :
    (|(entity_move t e).delta.x| = |e.delta.x| ∧
     |(entity_move t e).delta.y| = |e.delta.y|) ∧
    ((entity_move t e).delta = e.delta ∨
     (entity_move t e).delta = ⟨-e.delta.x, e.delta.y⟩ ∨
     (entity_move t e).delta = ⟨e.delta.x, -e.delta.y⟩) := by
  refine ⟨?_, entity_move_delta_cases t e⟩
  rcases entity_move_delta_cases t e with h | h | h <;> rw [h] <;> simp [abs_neg]

/-- The C idiom `(!v + v) * 2` used by Speed-mode doubling: a zero component
becomes `2`, a non-zero component is doubled. -/
theorem bang_double (v : ℚ) :
    ((if v = 0 then 1 else 0) + v) * 2 = if v = 0 then 2 else v * 2 := by
  split_ifs with h <;> simp [h]

/-- One `entity_move` step from the creation defaults on an 80×24 terminal:
the tentative y coordinate `60.005` is at or beyond `DISPLAY_HEIGHT = 23`,
so the y velocity is reflected and the position clamped to `(1.005, 22)`. -/
theorem default_step_value :
    entity_move ⟨24, 80⟩ DEFAULT_ENTITY_PROPERTIES =
      { pos := ⟨201/200, 22⟩, delta := ⟨1/200, -(1/200)⟩, size := ⟨2, 1⟩ } := by
  norm_num [entity_move, collision, collision_x, collision_y, constrain,
    constrain_x, constrain_y, vec2_add, vec2_sub, DEFAULT_ENTITY_PROPERTIES,
    DISPLAY_WIDTH, DISPLAY_HEIGHT]

/-- Claim C4 counterexample: with the creation defaults and an 80×24
terminal the very first `entity_move` does trigger a collision (the default
y = 60 lies far beyond `DISPLAY_HEIGHT = 23`), so the position does not
advance by the velocity. -/
theorem default_scenario_collides :
    collision ⟨24, 80⟩
      (vec2_add DEFAULT_ENTITY_PROPERTIES.pos DEFAULT_ENTITY_PROPERTIES.delta) ∧
    (entity_move ⟨24, 80⟩ DEFAULT_ENTITY_PROPERTIES).pos ≠
      vec2_add DEFAULT_ENTITY_PROPERTIES.pos DEFAULT_ENTITY_PROPERTIES.delta := by
  constructor
  · have h : (vec2_add DEFAULT_ENTITY_PROPERTIES.pos DEFAULT_ENTITY_PROPERTIES.delta).y ≥
        ((DISPLAY_HEIGHT ⟨24, 80⟩ : ℤ) : ℚ) := by
      norm_num [vec2_add, DEFAULT_ENTITY_PROPERTIES, DISPLAY_HEIGHT]
    exact Or.inr (Or.inr h)
  · rw [default_step_value]
    simp only [vec2_add, DEFAULT_ENTITY_PROPERTIES]
    intro hEq
    have h2 := congrArg vec2.y hEq
    norm_num at h2

/-- Claim C4 (amended): with the entity at its creation defaults and an
80×24 terminal, one call to `entity_move` triggers a y-axis leading-edge
collision (the default y = 60 lies beyond `DISPLAY_HEIGHT = 23`): the
velocity becomes `(0.005, -0.005)` and the position is clamped to
`(1.005, 22)`; with no key pressed the mode stays Normal and the entity is
untouched by the command interpreter. -/
theorem default_scenario_eval :
    entity_move ⟨24, 80⟩ DEFAULT_ENTITY_PROPERTIES =
      { pos := ⟨201/200, 22⟩, delta := ⟨1/200, -(1/200)⟩, size := ⟨2, 1⟩ } ∧
    handle_command ⟨24, 80⟩ NORMAL (entity_move ⟨24, 80⟩ DEFAULT_ENTITY_PROPERTIES)
        no_input =
      (NORMAL, entity_move ⟨24, 80⟩ DEFAULT_ENTITY_PROPERTIES) := by
  refine ⟨default_step_value, ?_⟩
  unfold handle_command
  norm_num [no_input, key_q, key_n, key_r, key_s]

/-- Claim C5 counterexample: with `DISPLAY_WIDTH = DISPLAY_HEIGHT = 10`
(so `MAX_ENTITY_WIDTH = MAX_ENTITY_HEIGHT = 5`) and size `(4,4)`, Resize
`w` grows the entity to `(5,5)` although the resulting size does not stay
strictly below half the viewport: the guard tests the current size, not the
resulting one. -/
theorem resize_grow_escapes_half :
    (handle_command ⟨11, 11⟩ RESIZE ⟨⟨1, 1⟩, ⟨1/200, 1/200⟩, ⟨4, 4⟩⟩ key_w).2.size =
      ⟨5, 5⟩ ∧
    ¬ ((4 : ℚ) + 1 < (MAX_ENTITY_WIDTH ⟨11, 11⟩ : ℚ) ∧
       (4 : ℚ) + 1 < (MAX_ENTITY_HEIGHT ⟨11, 11⟩ : ℚ)) := by
  constructor
  · norm_num [handle_command, key_q, key_n, key_r, key_s, key_w,
      show MAX_ENTITY_WIDTH ⟨11, 11⟩ = 5 from rfl,
      show MAX_ENTITY_HEIGHT ⟨11, 11⟩ = 5 from rfl]
  · norm_num [show MAX_ENTITY_WIDTH ⟨11, 11⟩ = 5 from rfl]

/-- Claim C5 (amended): in Resize mode, `w` grows the entity by one cell in
both dimensions exactly when the current size is strictly below
`MAX_ENTITY_WIDTH = ⌊DISPLAY_WIDTH/2⌋` and `MAX_ENTITY_HEIGHT` in both
dimensions (so the resulting size stays at or below those integer halves);
otherwise the entity is unchanged; the mode stays Resize. -/
theorem resize_grow_guard (t : tty_ctx_t) (e : entity_t) :
    ((e.size.x < (MAX_ENTITY_WIDTH t : ℚ) ∧ e.size.y < (MAX_ENTITY_HEIGHT t : ℚ)) →
      handle_command t RESIZE e key_w =
        (RESIZE, { e with size := ⟨e.size.x + 1, e.size.y + 1⟩ })) ∧
    (¬ (e.size.x < (MAX_ENTITY_WIDTH t : ℚ) ∧ e.size.y < (MAX_ENTITY_HEIGHT t : ℚ)) →
      handle_command t RESIZE e key_w = (RESIZE, e)) := by
  constructor <;> intro h <;>
    simp [handle_command, key_q, key_n, key_s, key_w, h]

/-- Witness for `resize_grow_guard` at size `(1,1)` on a 10×10 viewport. -/
theorem resize_grow_guard_witness :
    handle_command ⟨11, 11⟩ RESIZE ⟨⟨1, 1⟩, ⟨1/200, 1/200⟩, ⟨1, 1⟩⟩ key_w =
      (RESIZE, ⟨⟨1, 1⟩, ⟨1/200, 1/200⟩, ⟨2, 2⟩⟩) := by
  have h := (resize_grow_guard ⟨11, 11⟩ ⟨⟨1, 1⟩, ⟨1/200, 1/200⟩, ⟨1, 1⟩⟩).1
    (by norm_num [show MAX_ENTITY_WIDTH ⟨11, 11⟩ = 5 from rfl,
          show MAX_ENTITY_HEIGHT ⟨11, 11⟩ = 5 from rfl])
  rw [h]
  norm_num

/-- Claim C6 counterexample: with `DISPLAY_WIDTH = DISPLAY_HEIGHT = 10` and
velocity `(9,9)`, Speed `w` doubles the velocity to `(18,18)` although the
resulting components do not stay below the viewport extent: the guard tests
the current velocity, not the resulting one. -/
theorem speed_double_escapes_bound :
    (handle_command ⟨11, 11⟩ SPEED ⟨⟨1, 1⟩, ⟨9, 9⟩, ⟨1, 1⟩⟩ key_w).2.delta =
      ⟨18, 18⟩ ∧
    ¬ ((18 : ℚ) < (MAX_ENTITY_DELTA_X ⟨11, 11⟩ : ℚ)) := by
  constructor
  · norm_num [handle_command, key_q, key_n, key_r, key_s, key_w,
      MAX_ENTITY_DELTA_X, MAX_ENTITY_DELTA_Y, DISPLAY_WIDTH, DISPLAY_HEIGHT]
  · norm_num [MAX_ENTITY_DELTA_X, DISPLAY_WIDTH]

/-- Claim C6 (amended): in Speed mode, `w` doubles both velocity components
— a component exactly zero becomes `2`, not `0` — exactly when both current
components are strictly below the viewport extents (`MAX_ENTITY_DELTA_X =
DISPLAY_WIDTH`, `MAX_ENTITY_DELTA_Y = DISPLAY_HEIGHT`); otherwise the
velocity is unchanged; the mode stays Speed. -/
theorem speed_double_guard (t : tty_ctx_t) (e : entity_t) :
    ((e.delta.x < (MAX_ENTITY_DELTA_X t : ℚ) ∧ e.delta.y < (MAX_ENTITY_DELTA_Y t : ℚ)) →
      handle_command t SPEED e key_w = (SPEED, { e with delta :=
        ⟨if e.delta.x = 0 then 2 else e.delta.x * 2,
         if e.delta.y = 0 then 2 else e.delta.y * 2⟩ })) ∧
    (¬ (e.delta.x < (MAX_ENTITY_DELTA_X t : ℚ) ∧ e.delta.y < (MAX_ENTITY_DELTA_Y t : ℚ)) →
      handle_command t SPEED e key_w = (SPEED, e)) := by
  constructor <;> intro h <;>
    simp [handle_command, key_q, key_n, key_s, key_w, h, bang_double]

/-- Witness for `speed_double_guard`: velocity `(0, 3)` becomes `(2, 6)`. -/
theorem speed_double_guard_witness :
    handle_command ⟨11, 11⟩ SPEED ⟨⟨1, 1⟩, ⟨0, 3⟩, ⟨1, 1⟩⟩ key_w =
      (SPEED, ⟨⟨1, 1⟩, ⟨2, 6⟩, ⟨1, 1⟩⟩) := by
  have h := (speed_double_guard ⟨11, 11⟩ ⟨⟨1, 1⟩, ⟨0, 3⟩, ⟨1, 1⟩⟩).1
    (by norm_num [MAX_ENTITY_DELTA_X, MAX_ENTITY_DELTA_Y, DISPLAY_WIDTH, DISPLAY_HEIGHT])
  rw [h]
  norm_num

/-- Claim C7: halving is the exact inverse of doubling — for velocity
components that are positive (hence non-zero) and within the speed bounds,
Speed-mode `w` followed by Speed-mode `s` restores the original velocity. -/
theorem speed_halve_double_inverse (t : tty_ctx_t) (e : entity_t)
    (hx0 : 0 < e.delta.x) (hxW : e.delta.x < (MAX_ENTITY_DELTA_X t : ℚ))
    (hy0 : 0 < e.delta.y) (hyH : e.delta.y < (MAX_ENTITY_DELTA_Y t : ℚ)) :
    (handle_command t SPEED (handle_command t SPEED e key_w).2 key_s).2.delta =
      e.delta := by
  have hxne : e.delta.x ≠ 0 := ne_of_gt hx0
  have hyne : e.delta.y ≠ 0 := ne_of_gt hy0
  have hc : e.delta.x < (MAX_ENTITY_DELTA_X t : ℚ) ∧ e.delta.y < (MAX_ENTITY_DELTA_Y t : ℚ) :=
    ⟨hxW, hyH⟩
  have h1 : handle_command t SPEED e key_w =
      (SPEED, { e with delta := ⟨e.delta.x * 2, e.delta.y * 2⟩ }) := by
    simp [handle_command, key_q, key_n, key_s, key_w, hc, hxne, hyne]
  rw [h1]
  have hg : (⟨e.pos, ⟨e.delta.x * 2, e.delta.y * 2⟩, e.size⟩ : entity_t).delta.x >
      (MIN_ENTITY_DELTA_X : ℚ) ∧
      (⟨e.pos, ⟨e.delta.x * 2, e.delta.y * 2⟩, e.size⟩ : entity_t).delta.y >
      (MIN_ENTITY_DELTA_Y : ℚ) := by
    constructor <;> simp [MIN_ENTITY_DELTA_X, MIN_ENTITY_DELTA_Y] <;> linarith
  have h4 : handle_command t SPEED { e with delta := ⟨e.delta.x * 2, e.delta.y * 2⟩ }
      key_s =
      (SPEED, { e with delta := ⟨e.delta.x * 2 / 2, e.delta.y * 2 / 2⟩ }) := by
    simp [handle_command, key_q, key_n, key_s, key_w, hg]
  rw [h4]
  have h2 : e.delta.x * 2 / 2 = e.delta.x := by ring
  have h3 : e.delta.y * 2 / 2 = e.delta.y := by ring
  simp only [h2, h3]

/-- Witness for `speed_halve_double_inverse` at velocity `(3, 4)` on a
10×10 viewport. -/
theorem speed_halve_double_inverse_witness :
    (handle_command ⟨11, 11⟩ SPEED
        (handle_command ⟨11, 11⟩ SPEED ⟨⟨1, 1⟩, ⟨3, 4⟩, ⟨1, 1⟩⟩ key_w).2 key_s).2.delta =
      ⟨3, 4⟩ :=
  speed_halve_double_inverse ⟨11, 11⟩ ⟨⟨1, 1⟩, ⟨3, 4⟩, ⟨1, 1⟩⟩
    (by norm_num) (by norm_num [MAX_ENTITY_DELTA_X, DISPLAY_WIDTH])
    (by norm_num) (by norm_num [MAX_ENTITY_DELTA_Y, DISPLAY_HEIGHT])

/-- `constrain_x` always lands in `[1, DISPLAY_WIDTH)` when the viewport is
at least 2 wide. -/
theorem constrain_x_bounds (t : tty_ctx_t) (hW : (2 : ℚ) ≤ (DISPLAY_WIDTH t : ℚ))
    (x : ℚ) :
    1 ≤ constrain_x t x ∧ constrain_x t x < (DISPLAY_WIDTH t : ℚ) := by
  unfold constrain_x
  split_ifs with h1 h2 <;> constructor <;> linarith

/-- `constrain_y` always lands in `[1, DISPLAY_HEIGHT)` when the viewport is
at least 2 tall. -/
theorem constrain_y_bounds (t : tty_ctx_t) (hH : (2 : ℚ) ≤ (DISPLAY_HEIGHT t : ℚ))
    (y : ℚ) :
    1 ≤ constrain_y t y ∧ constrain_y t y < (DISPLAY_HEIGHT t : ℚ) := by
  unfold constrain_y
  split_ifs with h1 h2 <;> constructor <;> linarith

/-- Trailing-edge x clamp: subtracting the size back from the constrained
far corner stays in `[1, DISPLAY_WIDTH)` when the tentative position is
strictly inside and the size is between 0 and `DISPLAY_WIDTH - 2`. -/
theorem constrain_x_sub (t : tty_ctx_t) (a s : ℚ)
    (ha1 : 1 < a) (ha2 : a < (DISPLAY_WIDTH t : ℚ))
    (hs0 : 0 ≤ s) (hs2 : s ≤ (DISPLAY_WIDTH t : ℚ) - 2) :
    1 ≤ constrain_x t (a + s) - s ∧ constrain_x t (a + s) - s < (DISPLAY_WIDTH t : ℚ) := by
  unfold constrain_x
  split_ifs with h1 h2 <;> constructor <;> linarith

/-- Trailing-edge y clamp, as `constrain_x_sub`. -/
theorem constrain_y_sub (t : tty_ctx_t) (a s : ℚ)
    (ha1 : 1 < a) (ha2 : a < (DISPLAY_HEIGHT t : ℚ))
    (hs0 : 0 ≤ s) (hs2 : s ≤ (DISPLAY_HEIGHT t : ℚ) - 2) :
    1 ≤ constrain_y t (a + s) - s ∧ constrain_y t (a + s) - s < (DISPLAY_HEIGHT t : ℚ) := by
  unfold constrain_y
  split_ifs with h1 h2 <;> constructor <;> linarith

/-- The far corner recomputed in the other addition order. -/
theorem new_end_comm (e : entity_t) :
    vec2_add (vec2_add e.pos e.size) e.delta = vec2_add (vec2_add e.pos e.delta) e.size := by
  simp only [vec2_add, vec2.mk.injEq]
  constructor <;> ring

/-- The position produced by `entity_move`, by branch. -/
theorem entity_move_pos_eq (t : tty_ctx_t) (e : entity_t) :
    (entity_move t e).pos =
      if collision t (vec2_add e.pos e.delta) then
        constrain t (vec2_add e.pos e.delta)
      else if collision t (vec2_add (vec2_add e.pos e.size) e.delta) then
        vec2_sub (constrain t (vec2_add (vec2_add e.pos e.size) e.delta)) e.size
      else vec2_add e.pos e.delta := by
  simp only [entity_move]
  split_ifs <;> rfl

/-- The input of the Claim C1 counterexample: position `(7.9, 5)`, velocity
`(0.6, 0)`, size `(1, 1)` on a 10×10 viewport. -/
def c1_entity : entity_t := { pos := ⟨79/10, 5⟩, delta := ⟨3/5, 0⟩, size := ⟨1, 1⟩ }

/-- Claim C1 counterexample: the entity and its far corner start within the
viewport bounds, no collision triggers, yet after the move the far corner's
x coordinate is `9.5`, strictly outside `[1, DISPLAY_WIDTH - 1] = [1, 9]`
and not a clamp boundary value. -/
theorem entity_move_escapes_clamp_interval :
    ¬ out_of_bounds ⟨11, 11⟩ c1_entity.pos ∧
    ¬ out_of_bounds ⟨11, 11⟩ (vec2_add c1_entity.pos c1_entity.size) ∧
    ¬ in_clamp_interval ⟨11, 11⟩
      (vec2_add (entity_move ⟨11, 11⟩ c1_entity).pos
        (entity_move ⟨11, 11⟩ c1_entity).size) := by
  refine ⟨?_, ?_, ?_⟩
  · norm_num [out_of_bounds, out_of_bounds_x, out_of_bounds_y, c1_entity,
      DISPLAY_WIDTH, DISPLAY_HEIGHT]
  · norm_num [out_of_bounds, out_of_bounds_x, out_of_bounds_y, vec2_add, c1_entity,
      DISPLAY_WIDTH, DISPLAY_HEIGHT]
  · have hmove : entity_move ⟨11, 11⟩ c1_entity =
        { pos := ⟨17/2, 5⟩, delta := ⟨3/5, 0⟩, size := ⟨1, 1⟩ } := by
      norm_num [entity_move, collision, collision_x, collision_y, constrain,
        constrain_x, constrain_y, vec2_add, vec2_sub, c1_entity,
        DISPLAY_WIDTH, DISPLAY_HEIGHT]
    rw [hmove]
    norm_num [in_clamp_interval, vec2_add, DISPLAY_WIDTH, DISPLAY_HEIGHT]

/-- Claim C1 (amended): if the position and far corner lie within the
viewport bounds before the step and the size components are between 0 and
`bound - 2`, then one `entity_move` produces a position within the viewport
bounds `[1, bound)`; the far corner, however, may land anywhere in
`[1, bound)` without a collision and is not re-checked after a clamp on the
other axis, so only the interval `[1, bound)` — not `[1, bound - 1]` — and
only the position are guaranteed. -/
theorem entity_move_pos_in_viewport (t : tty_ctx_t) (e : entity_t)
    (hW : 2 ≤ DISPLAY_WIDTH t) (hH : 2 ≤ DISPLAY_HEIGHT t)
    (hpos : ¬ out_of_bounds t e.pos)
    (hend : ¬ out_of_bounds t (vec2_add e.pos e.size))
    (hsx0 : 0 ≤ e.size.x) (hsxW : e.size.x ≤ (DISPLAY_WIDTH t : ℚ) - 2)
    (hsy0 : 0 ≤ e.size.y) (hsyH : e.size.y ≤ (DISPLAY_HEIGHT t : ℚ) - 2) :
    ¬ out_of_bounds t (entity_move t e).pos := by
  have hWq : (2 : ℚ) ≤ (DISPLAY_WIDTH t : ℚ) := by exact_mod_cast hW
  have hHq : (2 : ℚ) ≤ (DISPLAY_HEIGHT t : ℚ) := by exact_mod_cast hH
  rw [not_out_of_bounds_iff, entity_move_pos_eq]
  split_ifs with h1 h2
  · have hx := constrain_x_bounds t hWq (vec2_add e.pos e.delta).x
    have hy := constrain_y_bounds t hHq (vec2_add e.pos e.delta).y
    exact ⟨hx.1, hx.2, hy.1, hy.2⟩
  · obtain ⟨hax, haxW, hay, hayH⟩ := (not_collision_iff t _).mp h1
    rw [new_end_comm e]
    have hx := constrain_x_sub t ((vec2_add e.pos e.delta).x) e.size.x hax haxW hsx0 hsxW
    have hy := constrain_y_sub t ((vec2_add e.pos e.delta).y) e.size.y hay hayH hsy0 hsyH
    exact ⟨hx.1, hx.2, hy.1, hy.2⟩
  · obtain ⟨hax, haxW, hay, hayH⟩ := (not_collision_iff t _).mp h1
    exact ⟨le_of_lt hax, haxW, le_of_lt hay, hayH⟩

/-- Witness for `entity_move_pos_in_viewport` at position `(2,2)`, velocity
`(1/2, 1/2)`, size `(1,1)` on a 10×10 viewport. -/
theorem entity_move_pos_in_viewport_witness :
    ¬ out_of_bounds ⟨11, 11⟩ (entity_move ⟨11, 11⟩ ⟨⟨2, 2⟩, ⟨1/2, 1/2⟩, ⟨1, 1⟩⟩).pos :=
  entity_move_pos_in_viewport ⟨11, 11⟩ ⟨⟨2, 2⟩, ⟨1/2, 1/2⟩, ⟨1, 1⟩⟩
    (by norm_num [DISPLAY_WIDTH]) (by norm_num [DISPLAY_HEIGHT])
    (by norm_num [out_of_bounds, out_of_bounds_x, out_of_bounds_y,
      DISPLAY_WIDTH, DISPLAY_HEIGHT])
    (by norm_num [out_of_bounds, out_of_bounds_x, out_of_bounds_y, vec2_add,
      DISPLAY_WIDTH, DISPLAY_HEIGHT])
    (by norm_num) (by norm_num [DISPLAY_WIDTH])
    (by norm_num) (by norm_num [DISPLAY_HEIGHT])
